import Mathlib

/- Shallow embedding of the SC4 Python Framework plugin host.

   Source of the embedding:
   - PythonManager (PythonBindings.cpp / PythonManager.h): runtime session
     lifecycle, plugin registry, event dispatch, cheat routing.
   - CityWrapper (CityWrapper.cpp / CityWrapper.h): city state facade.

   Modelling conventions:
   - The unordered_map loadedPlugins is modelled as an association list
     List (String x PluginInfo); iteration order is list order and key
     uniqueness (a map invariant) is carried as a Nodup hypothesis where
     a theorem needs it.
   - A loaded Python instance is abstracted by the fields hasInstance
     (instance_ptr != nullptr), and attrs: an association list from
     attribute name to the outcome of calling that attribute, where
     none models the call raising an exception and some b models a
     normal return with truthiness b.  py::hasattr is membership in
     attrs.
   - The outcome of external effects (module import succeeding, the
     embedded interpreter starting, budget simulator calls) is supplied
     through small environment records, since those effects live outside
     this repository.
   - Dispatch functions additionally return a trace of the handler
     invocations they actually performed, so that claims of the form
     "the handler is invoked on plugin X" are statable; the Bool
     component is exactly the C++ return value. -/

namespace SC4

/- Filesystem name helpers, modelling std::filesystem::path::extension,
   path::filename and path::stem as used by DiscoverPluginFiles and
   LoadPlugin. -/

def extListAux : List Char → Option (List Char)
  | [] => none
  | c :: rest =>
    match extListAux rest with
    | some e => some e
    | none => if c = '.' then some (c :: rest) else none

def extensionOf (f : String) : String :=
  match f.toList with
  | [] => ""
  | ['.'] => ""
  | ['.', '.'] => ""
  | _ :: rest =>
    match extListAux rest with
    | some e => String.mk e
    | none => ""

def leadingUnderscore (f : String) : Bool :=
  match f.toList with
  | [] => false
  | c :: _ => c = '_'

def afterLastSep : List Char → Option (List Char)
  | [] => none
  | c :: rest =>
    match afterLastSep rest with
    | some t => some t
    | none => if c = '/' ∨ c = '\\' then some rest else none

def fileNameOf (p : String) : String :=
  match afterLastSep p.toList with
  | some t => String.mk t
  | none => p

def stemOf (p : String) : String :=
  (fileNameOf p).dropRight (extensionOf (fileNameOf p)).length

/- One entry of a directory listing, as seen by
   std::filesystem::directory_iterator. -/
structure DirEntry where
  filename : String
  isRegularFile : Bool
deriving DecidableEq

/- PythonManager::DiscoverPluginFiles.  The dirExists flag models the
   std::filesystem::exists(pluginsDir) guard; the listing models the
   directory_iterator enumeration, in enumeration order. -/
def DiscoverPluginFiles (dirExists : Bool) (listing : List DirEntry) : List String :=
  if dirExists then
    (listing.filter
        (fun e => e.isRegularFile && (extensionOf e.filename == ".py")
          && !leadingUnderscore e.filename)).map
      (fun e => e.filename)
  else []

/- PythonManager::PluginInfo plus the abstraction of the Python-side
   instance the void pointer refers to (see the header comment). -/
structure PluginInfo where
  filepath : String
  name : String
  hasInstance : Bool
  loaded : Bool
  attrs : List (String × Option Bool)
deriving DecidableEq

/- py::hasattr on the instance. -/
def hasMethod (p : PluginInfo) (m : String) : Bool :=
  (List.lookup m p.attrs).isSome

/- Outcome of calling attribute m: none models a raised exception,
   some b a normal return whose truthiness is b.  Only meaningful when
   hasMethod p m is true. -/
def methodResult (p : PluginInfo) (m : String) : Option Bool :=
  (List.lookup m p.attrs).getD none

/- The PythonManager state touched by the modelled operations. -/
structure PMState where
  pythonInitialized : Bool
  loadedPlugins : List (String × PluginInfo)
  lastError : String
deriving DecidableEq

/- PythonManager::SetError. -/
def SetError (st : PMState) (e : String) : PMState :=
  { st with lastError := e }

/- PythonManager::IsPythonInitialized. -/
def IsPythonInitialized (st : PMState) : Bool := st.pythonInitialized

/- PythonManager::GetLastError. -/
def GetLastError (st : PMState) : String := st.lastError

/- External outcomes of py::module::import for a given module name. -/
structure PyEnv where
  importOk : String → Bool
  importErr : String → String

/- PythonManager::LoadPlugin.  Mirrors the source: the already-present
   guard checks mere presence of the name in the map; a successful
   module load records an entry with loaded = true and a null instance
   pointer (the source leaves instantiation as a TODO); the catch
   branch only sets the last error and returns false, recording no
   entry. -/
def LoadPlugin (env : PyEnv) (st : PMState) (filepath : String) : Bool × PMState :=
  let pluginName := stemOf filepath
  if (List.lookup pluginName st.loadedPlugins).isSome then
    (true, st)
  else if env.importOk pluginName then
    let info : PluginInfo :=
      { filepath := filepath, name := pluginName, hasInstance := false,
        loaded := true, attrs := [] }
    (true, { st with loadedPlugins := st.loadedPlugins ++ [(pluginName, info)] })
  else
    (false, SetError st ("Failed to load plugin " ++ filepath ++ ": "
      ++ env.importErr pluginName))

/- PythonManager::UnloadPlugin.  If present, the entry is erased; the
   best-effort shutdown call has no effect on the modelled state. -/
def UnloadPlugin (st : PMState) (pluginName : String) : PMState :=
  if (List.lookup pluginName st.loadedPlugins).isSome then
    { st with loadedPlugins := st.loadedPlugins.eraseP (fun e => e.1 == pluginName) }
  else st

/- The loop body of PythonManager::LoadPlugins, instrumented with a
   trace of (filepath, individual result) in attempt order. -/
def loadPassAux (env : PyEnv) (st : PMState) :
    List String → Bool × PMState × List (String × Bool)
  | [] => (true, st, [])
  | f :: rest =>
    let r := LoadPlugin env st f
    let t := loadPassAux env r.2 rest
    (r.1 && t.1, t.2.1, (f, r.1) :: t.2.2)

/- PythonManager::LoadPlugins. -/
def LoadPlugins (env : PyEnv) (dirExists : Bool) (listing : List DirEntry)
    (st : PMState) : Bool × PMState × List (String × Bool) :=
  if st.pythonInitialized then
    loadPassAux env st (DiscoverPluginFiles dirExists listing)
  else
    (false, SetError st "Python not initialized", [])

/- PythonManager::CallPluginMethod, instrumented with the list of
   handler invocations actually performed (zero or one). -/
def CallPluginMethod (plugins : List (String × PluginInfo))
    (pluginName method : String) : Bool × List (String × Option Bool) :=
  match List.lookup pluginName plugins with
  | none => (false, [])
  | some p =>
    if p.loaded && p.hasInstance then
      if hasMethod p method then
        match methodResult p method with
        | none => (false, [(pluginName, none)])
        | some b => (true, [(pluginName, some b)])
      else (true, [])
    else (false, [])

/- The loop of PythonManager::CallAllPlugins: iterates the map entries
   in order and calls CallPluginMethod (which looks the name up again
   in the full map) on each loaded one. -/
def callAllAux (full : List (String × PluginInfo)) (method : String) :
    List (String × PluginInfo) → Bool × List (String × Option Bool)
  | [] => (true, [])
  | (n, p) :: rest =>
    let t := callAllAux full method rest
    if p.loaded then
      let r := CallPluginMethod full n method
      (r.1 && t.1, r.2 ++ t.2)
    else t

/- PythonManager::CallAllPlugins. -/
def CallAllPlugins (plugins : List (String × PluginInfo)) (method : String) :
    Bool × List (String × Option Bool) :=
  callAllAux plugins method plugins

/- The guard of the HandleCheat loop: plugin.loaded && plugin.instance_ptr
   && py::hasattr(instance, "handle_cheat"). -/
def exposesCheat (p : PluginInfo) : Bool :=
  p.loaded && p.hasInstance && hasMethod p "handle_cheat"

/- The plugin loop of PythonManager::HandleCheat.  A raised exception
   (methodResult = none) propagates out of the C++ for loop into the
   function-level catch, which returns false: hence the loop stops
   there.  A truthy return short-circuits with true. -/
def handleCheatLoop : List (String × PluginInfo) → Bool × List (String × Option Bool)
  | [] => (false, [])
  | (n, p) :: rest =>
    if exposesCheat p then
      match methodResult p "handle_cheat" with
      | none => (false, [(n, none)])
      | some b =>
        if b then (true, [(n, some b)])
        else
          let t := handleCheatLoop rest
          (t.1, (n, some b) :: t.2)
    else handleCheatLoop rest

/- PythonManager::HandleCheat.  typesOk models the sc4_types import and
   CheatCommand construction succeeding; their failure is caught by the
   same function-level catch and yields false with no invocation. -/
def HandleCheat (st : PMState) (typesOk : Bool) (_cheatID : Nat)
    (_cheatText : String) : Bool × List (String × Option Bool) :=
  if st.pythonInitialized then
    if typesOk then handleCheatLoop st.loadedPlugins
    else (false, [])
  else (false, [])

/- Specification-side view of the cheat loop restricted to the exposing
   entries; used to state first-match properties. -/
def goCheat : List (String × PluginInfo) → Bool × List (String × Option Bool)
  | [] => (false, [])
  | (n, p) :: rest =>
    match methodResult p "handle_cheat" with
    | none => (false, [(n, none)])
    | some b =>
      if b then (true, [(n, some b)])
      else
        let t := goCheat rest
        (t.1, (n, some b) :: t.2)

/- The trace record of one handle_cheat invocation of an entry. -/
def cheatInv (e : String × PluginInfo) : String × Option Bool :=
  (e.1, methodResult e.2 "handle_cheat")

/- Registry operations for sequences of load and unload calls. -/
inductive RegOp where
  | load (src : String)
  | unload (pluginName : String)

def applyRegOp (env : PyEnv) (st : PMState) : RegOp → PMState
  | RegOp.load src => (LoadPlugin env st src).2
  | RegOp.unload n => UnloadPlugin st n

def applyRegOps (env : PyEnv) (st : PMState) (ops : List RegOp) : PMState :=
  ops.foldl (applyRegOp env) st

/- External outcomes of the steps of PythonManager::Initialize. -/
structure InitEnv where
  interpOk : Bool
  interpErr : String
  nativeImportOk : Bool
  pathsOk : Bool
  envOk : Bool
  bootstrapOk : Bool
  loggingOk : Bool
deriving DecidableEq

/- PythonManager::Initialize.  envOk (SetupPythonEnvironment) and
   loggingOk (SetupPythonLogging) only produce warnings in the source
   and do not influence the result or the state, so they do not appear
   in the body.  Each failing mandatory step returns false before
   pythonInitialized is ever assigned. -/
def InitializeSession (env : InitEnv) (st : PMState) : Bool × PMState :=
  if st.pythonInitialized then (true, st)
  else if env.interpOk = false then
    (false, SetError st ("Python initialization failed: " ++ env.interpErr))
  else if env.nativeImportOk = false then
    (false, SetError st "Failed to import native module")
  else if env.pathsOk = false then
    (false, SetError st "Failed to setup Python paths")
  else if env.bootstrapOk = false then
    (false, SetError st "Failed to load Python bootstrap code")
  else (true, { st with pythonInitialized := true })

/- City state facade (CityWrapper).  The budget simulator and the city
   object are external SC4 interfaces; their call outcomes are fields
   of the model. -/

structure CityBudget where
  totalFunds : Int
  setFundsOk : Bool
  depositOk : Bool
  withdrawOk : Bool
deriving DecidableEq

structure CityRef where
  nameOk : Bool
  cityName : String
  hasBudget : Bool
  budget : CityBudget
  inCityTimeSimMode : Bool
  birthDate : Nat
deriving DecidableEq

structure CityStats where
  residential_population : Nat
  commercial_population : Nat
  industrial_population : Nat
  total_jobs : Nat
  power_produced : Nat
  power_consumed : Nat
  water_produced : Nat
  water_consumed : Nat
deriving DecidableEq

structure CWState where
  city : Option CityRef
  statsCacheValid : Bool
  cachedStats : CityStats
deriving DecidableEq

/- CityWrapper::IsValid. -/
def IsValid (s : CWState) : Bool := s.city.isSome

/- CityWrapper::GetCityName. -/
def GetCityName (s : CWState) : String :=
  match s.city with
  | none => ""
  | some c => if c.nameOk then c.cityName else ""

/- CityWrapper::GetCityPopulation.  The residential simulator query is
   commented out in the source, so the valid branch also returns 0. -/
def GetCityPopulation (s : CWState) : Nat :=
  match s.city with
  | none => 0
  | some _ => 0

/- CityWrapper::GetCityMoney: max(0, funds) truncated to uint32. -/
def GetCityMoney (s : CWState) : Nat :=
  match s.city with
  | none => 0
  | some c =>
    if c.hasBudget then (max 0 c.budget.totalFunds).toNat % 2 ^ 32 else 0

/- CityWrapper::SetCityMoney.  SetTotalFunds is an external call; it is
   modelled as setting the funds and reporting setFundsOk. -/
def SetCityMoney (s : CWState) (amount : Nat) : Bool × CWState :=
  match s.city with
  | none => (false, s)
  | some c =>
    if c.hasBudget then
      let c2 := { c with budget := { c.budget with totalFunds := Int.ofNat amount } }
      (c.budget.setFundsOk, { s with city := some c2 })
    else (false, s)

/- CityWrapper::AddCityMoney: non-negative amounts deposit, negative
   amounts withdraw the negation; both are external calls, modelled as
   adjusting the funds and reporting the respective flag. -/
def AddCityMoney (s : CWState) (amount : Int) : Bool × CWState :=
  match s.city with
  | none => (false, s)
  | some c =>
    if c.hasBudget then
      let c2 := { c with budget := { c.budget with totalFunds := c.budget.totalFunds + amount } }
      if 0 ≤ amount then
        (c.budget.depositOk, { s with city := some c2 })
      else
        (c.budget.withdrawOk, { s with city := some c2 })
    else (false, s)

/- CityWrapper::GetMayorMode. -/
def GetMayorMode (s : CWState) : Bool :=
  match s.city with
  | none => false
  | some c => c.inCityTimeSimMode

/- CityWrapper::SetMayorMode: toggles the simulation mode when the
   current mode differs from the requested one, then returns true. -/
def SetMayorMode (s : CWState) (enabled : Bool) : Bool × CWState :=
  match s.city with
  | none => (false, s)
  | some c =>
    if c.inCityTimeSimMode ≠ enabled then
      (true, { s with city := some { c with inCityTimeSimMode := ¬c.inCityTimeSimMode } })
    else (true, s)

/- CityWrapper::GetCityDate. -/
def GetCityDate (s : CWState) : Nat :=
  match s.city with
  | none => 0
  | some c => c.birthDate

/- CityWrapper::GetCityTime.  The clock query is commented out in the
   source, so the valid branch also returns 0. -/
def GetCityTime (s : CWState) : Nat :=
  match s.city with
  | none => 0
  | some _ => 0

/- Helper lemmas about association-list lookup (the unordered_map
   find operation). -/

theorem lookup_none_iff_not_mem_keys {l : List (String × PluginInfo)} {n : String} :
    List.lookup n l = none ↔ n ∉ l.map Prod.fst := by
  induction l with
  | nil => simp
  | cons hd tl ih =>
    obtain ⟨a, b⟩ := hd
    by_cases h : n = a
    · subst h; simp [List.lookup]
    · have hba : (n == a) = false := by simp [h]
      simp [List.lookup, hba, h, ih]

theorem lookup_eq_some_of_mem_nodup {l : List (String × PluginInfo)} {n : String}
    {p : PluginInfo} (hmem : (n, p) ∈ l) (hnd : (l.map Prod.fst).Nodup) :
    List.lookup n l = some p := by
  induction l with
  | nil => cases hmem
  | cons hd tl ih =>
    obtain ⟨a, b⟩ := hd
    rcases List.mem_cons.mp hmem with h | h
    · obtain ⟨h1, h2⟩ := Prod.mk.injEq .. ▸ h
      subst h1; subst h2
      simp [List.lookup]
    · have hne : n ≠ a := by
        intro he
        subst he
        have : n ∈ tl.map Prod.fst := List.mem_map.mpr ⟨(n, p), h, rfl⟩
        exact (List.nodup_cons.mp hnd).1 this
      have htl : (tl.map Prod.fst).Nodup := (List.nodup_cons.mp hnd).2
      have hba : (n == a) = false := by simp [hne]
      simp [List.lookup, hba, ih h htl]

theorem countP_key_eq_one {l : List (String × PluginInfo)} {n : String}
    {p : PluginInfo} (hmem : (n, p) ∈ l) (hnd : (l.map Prod.fst).Nodup) :
    l.countP (fun e => e.1 == n) = 1 := by
  induction l with
  | nil => cases hmem
  | cons hd tl ih =>
    obtain ⟨a, b⟩ := hd
    have hnotin := (List.nodup_cons.mp hnd).1
    have htl := (List.nodup_cons.mp hnd).2
    rcases List.mem_cons.mp hmem with h | h
    · obtain ⟨h1, h2⟩ := Prod.mk.injEq .. ▸ h
      subst h1; subst h2
      have hzero : tl.countP (fun e => e.1 == n) = 0 := by
        refine List.countP_eq_zero.mpr ?_
        intro e he hbe
        have : e.1 = n := by simpa using hbe
        exact hnotin (this ▸ List.mem_map.mpr ⟨e, he, rfl⟩)
      simp [List.countP_cons, hzero]
    · have hne : a ≠ n := by
        intro he
        subst he
        exact hnotin (List.mem_map.mpr ⟨(a, p), h, rfl⟩)
      simp [List.countP_cons, hne, ih h htl]

/-- Claim C8: for every directory listing, DiscoverPluginFiles yields exactly
the entries that are regular files whose extension is the required plugin
extension .py and whose filename does not begin with an underscore; entries
with a different extension or a leading-underscore name are excluded. -/
theorem C8_discover_membership (listing : List DirEntry) (f : String) :
    f ∈ DiscoverPluginFiles true listing ↔
      ∃ e ∈ listing, e.filename = f ∧ e.isRegularFile = true
        ∧ extensionOf f = ".py" ∧ leadingUnderscore f = false := by
  simp only [DiscoverPluginFiles, if_pos, List.mem_map, List.mem_filter]
  constructor
  · rintro ⟨e, ⟨he, hp⟩, rfl⟩
    simp only [Bool.and_eq_true, beq_iff_eq, Bool.not_eq_true'] at hp
    exact ⟨e, he, rfl, hp.1.1, hp.1.2, hp.2⟩
  · rintro ⟨e, he, rfl, hreg, hext, hund⟩
    refine ⟨e, ⟨he, ?_⟩, rfl⟩
    simp [hreg, hext, hund]

def cwEmpty : CWState :=
  { city := none, statsCacheValid := false,
    cachedStats := ⟨0, 0, 0, 0, 0, 0, 0, 0⟩ }

/-- Claim C10: when no city is attached, every CityWrapper getter returns a
neutral default (empty name, 0 for population, money, date and time, false
for mayor mode) and every mutator returns false without mutating anything. -/
theorem C10_cityWrapper_null_guards (s : CWState) (h : s.city = none)
    (amount : Nat) (delta : Int) (enabled : Bool) :
    IsValid s = false ∧ GetCityName s = "" ∧ GetCityPopulation s = 0
    ∧ GetCityMoney s = 0 ∧ GetCityDate s = 0 ∧ GetCityTime s = 0
    ∧ GetMayorMode s = false
    ∧ SetCityMoney s amount = (false, s)
    ∧ AddCityMoney s delta = (false, s)
    ∧ SetMayorMode s enabled = (false, s) := by
  simp [IsValid, GetCityName, GetCityPopulation, GetCityMoney, GetCityDate,
    GetCityTime, GetMayorMode, SetCityMoney, AddCityMoney, SetMayorMode, h]

/-- Witness for C10: the guards evaluated at a concrete detached state. -/
theorem C10_witness :
    IsValid cwEmpty = false ∧ GetCityName cwEmpty = "" ∧ GetCityPopulation cwEmpty = 0
    ∧ GetCityMoney cwEmpty = 0 ∧ GetCityDate cwEmpty = 0 ∧ GetCityTime cwEmpty = 0
    ∧ GetMayorMode cwEmpty = false
    ∧ SetCityMoney cwEmpty 5000 = (false, cwEmpty)
    ∧ AddCityMoney cwEmpty (-250) = (false, cwEmpty)
    ∧ SetMayorMode cwEmpty true = (false, cwEmpty) :=
  C10_cityWrapper_null_guards cwEmpty rfl 5000 (-250) true

/-- Claim C9: whenever InitializeSession fails, it returns false and the
session stays uninitialized, so a later call on the resulting state with a
healthy environment succeeds. -/
theorem C9_init_failure_keeps_session_inactive (env : InitEnv) (st : PMState)
    (hfail : (InitializeSession env st).1 = false) :
    IsPythonInitialized (InitializeSession env st).2 = false
    ∧ ∀ env2 : InitEnv, env2.interpOk = true → env2.nativeImportOk = true →
        env2.pathsOk = true → env2.bootstrapOk = true →
        (InitializeSession env2 (InitializeSession env st).2).1 = true := by
  have hinit : st.pythonInitialized = false := by
    rcases Bool.eq_false_or_eq_true st.pythonInitialized with h | h
    · exfalso; simp [InitializeSession, h] at hfail
    · exact h
  constructor
  · by_cases h1 : env.interpOk <;> by_cases h2 : env.nativeImportOk <;>
      by_cases h3 : env.pathsOk <;> by_cases h4 : env.bootstrapOk <;>
      simp_all [InitializeSession, SetError, IsPythonInitialized]
  · intro env2 e1 e2 e3 e4
    by_cases h1 : env.interpOk <;> by_cases h2 : env.nativeImportOk <;>
      by_cases h3 : env.pathsOk <;> by_cases h4 : env.bootstrapOk <;>
      simp_all [InitializeSession, SetError]

def initEnvBad : InitEnv :=
  { interpOk := true, interpErr := "", nativeImportOk := true, pathsOk := true,
    envOk := true, bootstrapOk := false, loggingOk := true }

def initEnvGood : InitEnv := { initEnvBad with bootstrapOk := true }

def pmFresh : PMState :=
  { pythonInitialized := false, loadedPlugins := [], lastError := "" }

/-- Witness for C9: a concrete bootstrap-import failure leaves the fresh
session inactive and a later healthy call succeeds. -/
theorem C9_witness :
    IsPythonInitialized (InitializeSession initEnvBad pmFresh).2 = false
    ∧ (InitializeSession initEnvGood (InitializeSession initEnvBad pmFresh).2).1 = true := by
  have h := C9_init_failure_keeps_session_inactive initEnvBad pmFresh (by decide)
  exact ⟨h.1, h.2 initEnvGood rfl rfl rfl rfl⟩

def c7plugin : PluginInfo :=
  { filepath := "alpha.py", name := "alpha", hasInstance := true,
    loaded := true, attrs := [] }

/-- Counterexample to claim C7: an entry that exists, is loaded, holds a live
instance but does not expose the named handler makes CallPluginMethod return
true, while the claim demands false for a missing handler. -/
theorem C7_counterexample :
    (CallPluginMethod [("alpha", c7plugin)] "alpha" "on_city_init").1 = true
    ∧ List.lookup "alpha" [("alpha", c7plugin)] = some c7plugin
    ∧ c7plugin.loaded = true ∧ c7plugin.hasInstance = true
    ∧ hasMethod c7plugin "on_city_init" = false := by decide

/-- Claim C7 (amended): CallPluginMethod returns false precisely when the
entry does not exist, is not loaded, holds no live instance, or exposes the
handler and the handler raises; when the entry is loaded with a live instance
and does not expose the handler, the call is skipped and reported as true. -/
theorem C7_amended_callPluginMethod_false_iff
    (plugins : List (String × PluginInfo)) (n m : String) :
    (CallPluginMethod plugins n m).1 = false ↔
      List.lookup n plugins = none
      ∨ ∃ p, List.lookup n plugins = some p
          ∧ (p.loaded = false ∨ p.hasInstance = false
             ∨ (hasMethod p m = true ∧ methodResult p m = none)) := by
  cases hl : List.lookup n plugins with
  | none => simp [CallPluginMethod, hl]
  | some p =>
    by_cases h1 : p.loaded
    · by_cases h2 : p.hasInstance
      · by_cases h3 : hasMethod p m
        · cases hm : methodResult p m with
          | none => simp [CallPluginMethod, hl, h1, h2, h3, hm]
          | some b => simp [CallPluginMethod, hl, h1, h2, h3, hm]
        · simp [CallPluginMethod, hl, h1, h2, h3]
      · simp [CallPluginMethod, hl, h1, h2]
    · simp [CallPluginMethod, hl, h1]

def envNone : PyEnv :=
  { importOk := fun _ => false, importErr := fun _ => "ImportError" }

def pmReady : PMState :=
  { pythonInitialized := true, loadedPlugins := [], lastError := "" }

/-- Counterexample to claim C6: a failing import returns false and sets the
last error, but records no registry entry at all for the plugin name, while
the claim demands a recorded Failed entry. -/
theorem C6_counterexample :
    (LoadPlugin envNone pmReady "broken.py").1 = false
    ∧ (LoadPlugin envNone pmReady "broken.py").2.loadedPlugins = []
    ∧ List.lookup "broken" (LoadPlugin envNone pmReady "broken.py").2.loadedPlugins = none
    ∧ GetLastError (LoadPlugin envNone pmReady "broken.py").2 ≠ "" := by decide

/-- Claim C6 (amended): when the import of a not-yet-present plugin raises,
LoadPlugin returns false and sets the retrievable last error, and it records
no entry for the plugin name: the registry is left unchanged, so the failed
plugin is absent from dispatch. -/
theorem C6_amended_loadPlugin_failure (env : PyEnv) (st : PMState) (filepath : String)
    (habsent : List.lookup (stemOf filepath) st.loadedPlugins = none)
    (hfail : env.importOk (stemOf filepath) = false) :
    LoadPlugin env st filepath =
      (false, SetError st ("Failed to load plugin " ++ filepath ++ ": "
        ++ env.importErr (stemOf filepath)))
    ∧ (LoadPlugin env st filepath).2.loadedPlugins = st.loadedPlugins
    ∧ GetLastError (LoadPlugin env st filepath).2 =
        "Failed to load plugin " ++ filepath ++ ": " ++ env.importErr (stemOf filepath) := by
  refine ⟨?_, ?_, ?_⟩ <;> simp [LoadPlugin, habsent, hfail, SetError, GetLastError]

/-- Witness for C6 amended: the concrete failing import. -/
theorem C6_witness :
    LoadPlugin envNone pmReady "broken.py" =
      (false, SetError pmReady "Failed to load plugin broken.py: ImportError") := by
  have h := C6_amended_loadPlugin_failure envNone pmReady "broken.py" (by decide) (by decide)
  exact h.1.trans (by decide)

theorem loadPassAux_spec (env : PyEnv) (files : List String) : ∀ st : PMState,
    (loadPassAux env st files).2.2.map Prod.fst = files
    ∧ ((loadPassAux env st files).1 = true ↔
        ∀ e ∈ (loadPassAux env st files).2.2, e.2 = true) := by
  induction files with
  | nil => intro st; simp [loadPassAux]
  | cons f rest ih =>
    intro st
    have ih' := ih (LoadPlugin env st f).2
    simp only [loadPassAux, List.map_cons, List.forall_mem_cons, Bool.and_eq_true]
    refine ⟨by rw [ih'.1], ?_⟩
    rw [ih'.2]

/-- Claim C4: LoadPlugins on an uninitialized session fails with the
not-initialized error, returning false with the retrievable last error set
and the registry untouched; on an active session it attempts a load for
every discovered source in order, a single failure does not abort the pass,
and the aggregate is true iff every individual load succeeded. -/
theorem C4_loadPlugins (env : PyEnv) (dirExists : Bool) (listing : List DirEntry)
    (st : PMState) :
    (st.pythonInitialized = false →
      LoadPlugins env dirExists listing st = (false, SetError st "Python not initialized", [])
      ∧ (LoadPlugins env dirExists listing st).2.1.loadedPlugins = st.loadedPlugins
      ∧ GetLastError (LoadPlugins env dirExists listing st).2.1 = "Python not initialized")
    ∧ (st.pythonInitialized = true →
      (LoadPlugins env dirExists listing st).2.2.map Prod.fst
          = DiscoverPluginFiles dirExists listing
      ∧ ((LoadPlugins env dirExists listing st).1 = true ↔
          ∀ e ∈ (LoadPlugins env dirExists listing st).2.2, e.2 = true)) := by
  constructor
  · intro h
    refine ⟨?_, ?_, ?_⟩ <;> simp [LoadPlugins, h, SetError, GetLastError]
  · intro h
    simp only [LoadPlugins, h, if_true]
    exact loadPassAux_spec env (DiscoverPluginFiles dirExists listing) st

def envAll : PyEnv := { importOk := fun _ => true, importErr := fun _ => "" }

def pmOff : PMState :=
  { pythonInitialized := false, loadedPlugins := [], lastError := "" }

def dirListing : List DirEntry :=
  [⟨"alpha.py", true⟩, ⟨"_private.py", true⟩, ⟨"beta.txt", true⟩]

/-- Witness for C4: the not-initialized failure at a concrete state, and a
concrete active pass whose one discovered source fails to load, making the
aggregate false. -/
theorem C4_witness :
    LoadPlugins envAll true dirListing pmOff
        = (false, SetError pmOff "Python not initialized", [])
    ∧ (LoadPlugins envNone true dirListing pmReady).2.2.map Prod.fst = ["alpha.py"]
    ∧ (LoadPlugins envNone true dirListing pmReady).1 ≠ true := by
  have h1 := (C4_loadPlugins envAll true dirListing pmOff).1 rfl
  have h2 := (C4_loadPlugins envNone true dirListing pmReady).2 rfl
  refine ⟨h1.1, ?_, ?_⟩
  · rw [h2.1]; decide
  · intro hc
    have hmem : ("alpha.py", false) ∈ (LoadPlugins envNone true dirListing pmReady).2.2 := by
      decide
    have := h2.2.mp hc ("alpha.py", false) hmem
    simp at this

theorem loadPlugin_keys_nodup (env : PyEnv) (st : PMState) (src : String)
    (h : (st.loadedPlugins.map Prod.fst).Nodup) :
    ((LoadPlugin env st src).2.loadedPlugins.map Prod.fst).Nodup := by
  by_cases hl : (List.lookup (stemOf src) st.loadedPlugins).isSome
  · simp [LoadPlugin, hl, h]
  · have habs : List.lookup (stemOf src) st.loadedPlugins = none := by
      cases hx : List.lookup (stemOf src) st.loadedPlugins
      · rfl
      · simp [hx] at hl
    have hnot : stemOf src ∉ st.loadedPlugins.map Prod.fst :=
      lookup_none_iff_not_mem_keys.mp habs
    by_cases hi : env.importOk (stemOf src)
    · simp [LoadPlugin, hl, hi, List.nodup_append, h, hnot]
    · simp [LoadPlugin, hl, hi, SetError, h]

theorem unloadPlugin_keys_nodup (st : PMState) (n : String)
    (h : (st.loadedPlugins.map Prod.fst).Nodup) :
    ((UnloadPlugin st n).loadedPlugins.map Prod.fst).Nodup := by
  by_cases hl : (List.lookup n st.loadedPlugins).isSome
  · simp only [UnloadPlugin, hl, if_true]
    exact List.Nodup.sublist ((List.eraseP_sublist _).map Prod.fst) h
  · simpa [UnloadPlugin, hl] using h

theorem applyRegOps_keys_nodup (env : PyEnv) (ops : List RegOp) : ∀ st : PMState,
    (st.loadedPlugins.map Prod.fst).Nodup →
    ((applyRegOps env st ops).loadedPlugins.map Prod.fst).Nodup := by
  induction ops with
  | nil => intro st h; simpa [applyRegOps] using h
  | cons op rest ih =>
    intro st h
    have h1 : ((applyRegOp env st op).loadedPlugins.map Prod.fst).Nodup := by
      cases op with
      | load src => exact loadPlugin_keys_nodup env st src h
      | unload n => exact unloadPlugin_keys_nodup st n h
    simpa [applyRegOps, List.foldl_cons] using ih (applyRegOp env st op) h1

/-- Claim C5: a load whose derived name already has a Loaded entry is an
idempotent success no-op leaving the registry unchanged, and across every
sequence of load and unload calls the registry keys stay duplicate-free, so
it never holds more than one entry per distinct name. -/
theorem C5_load_idempotent_unique_names (env : PyEnv) (st : PMState) (src : String)
    (h : ∃ p, List.lookup (stemOf src) st.loadedPlugins = some p ∧ p.loaded = true) :
    LoadPlugin env st src = (true, st)
    ∧ ∀ (st2 : PMState) (ops : List RegOp), (st2.loadedPlugins.map Prod.fst).Nodup →
        ((applyRegOps env st2 ops).loadedPlugins.map Prod.fst).Nodup := by
  constructor
  · obtain ⟨p, hp, _⟩ := h
    simp [LoadPlugin, hp]
  · intro st2 ops h2
    exact applyRegOps_keys_nodup env ops st2 h2

def pAlphaLoaded : PluginInfo :=
  { filepath := "alpha.py", name := "alpha", hasInstance := false,
    loaded := true, attrs := [] }

def c5state : PMState :=
  { pythonInitialized := true, loadedPlugins := [("alpha", pAlphaLoaded)],
    lastError := "" }

/-- Witness for C5: reloading an already loaded name is a no-op and a
concrete load and unload sequence keeps the keys duplicate-free. -/
theorem C5_witness :
    LoadPlugin envAll c5state "alpha.py" = (true, c5state)
    ∧ ((applyRegOps envAll c5state
          [RegOp.load "alpha.py", RegOp.unload "alpha"]).loadedPlugins.map
          Prod.fst).Nodup := by
  have h := C5_load_idempotent_unique_names envAll c5state "alpha.py"
    ⟨pAlphaLoaded, by decide, rfl⟩
  exact ⟨h.1, h.2 c5state [RegOp.load "alpha.py", RegOp.unload "alpha"] (by decide)⟩

theorem callAllAux_trace (full : List (String × PluginInfo)) (m : String)
    (hnd : (full.map Prod.fst).Nodup) :
    ∀ rest : List (String × PluginInfo), (∀ e ∈ rest, e ∈ full) →
    (callAllAux full m rest).2 =
      (rest.filter (fun x => x.2.loaded && x.2.hasInstance && hasMethod x.2 m)).map
        (fun x => (x.1, methodResult x.2 m)) := by
  intro rest
  induction rest with
  | nil => intro _; simp [callAllAux]
  | cons hd tl ih =>
    intro hsub
    obtain ⟨n, p⟩ := hd
    have hmem : (n, p) ∈ full := hsub _ (List.mem_cons_self _ _)
    have hlk := lookup_eq_some_of_mem_nodup hmem hnd
    have htl := ih fun x hx => hsub x (List.mem_cons_of_mem _ hx)
    by_cases h1 : p.loaded
    · by_cases h2 : p.hasInstance
      · by_cases h3 : hasMethod p m
        · cases hm : methodResult p m with
          | none =>
            simp [callAllAux, CallPluginMethod, hlk, h1, h2, h3, hm, htl,
              List.filter_cons]
          | some b =>
            simp [callAllAux, CallPluginMethod, hlk, h1, h2, h3, hm, htl,
              List.filter_cons]
        · simp [callAllAux, CallPluginMethod, hlk, h1, h2, h3, htl, List.filter_cons]
      · simp [callAllAux, CallPluginMethod, hlk, h1, h2, htl, List.filter_cons]
    · simp [callAllAux, h1, htl, List.filter_cons]

theorem callAllAux_result (full : List (String × PluginInfo)) (m : String)
    (hnd : (full.map Prod.fst).Nodup) :
    ∀ rest : List (String × PluginInfo), (∀ e ∈ rest, e ∈ full) →
    ((callAllAux full m rest).1 = true ↔
      ∀ e ∈ rest, e.2.loaded = true →
        (e.2.hasInstance = true ∧ (hasMethod e.2 m = true → methodResult e.2 m ≠ none))) := by
  intro rest
  induction rest with
  | nil => intro _; simp [callAllAux]
  | cons hd tl ih =>
    intro hsub
    obtain ⟨n, p⟩ := hd
    have hmem : (n, p) ∈ full := hsub _ (List.mem_cons_self _ _)
    have hlk := lookup_eq_some_of_mem_nodup hmem hnd
    have htl := ih fun x hx => hsub x (List.mem_cons_of_mem _ hx)
    rw [List.forall_mem_cons]
    by_cases h1 : p.loaded
    · by_cases h2 : p.hasInstance
      · by_cases h3 : hasMethod p m
        · cases hm : methodResult p m with
          | none => simp [callAllAux, CallPluginMethod, hlk, h1, h2, h3, hm, htl]
          | some b => simp [callAllAux, CallPluginMethod, hlk, h1, h2, h3, hm, htl]
        · simp [callAllAux, CallPluginMethod, hlk, h1, h2, h3, htl]
      · simp [callAllAux, CallPluginMethod, hlk, h1, h2, htl]
    · simp [callAllAux, h1, htl]

def pNullInstance : PluginInfo :=
  { filepath := "alpha.py", name := "alpha", hasInstance := false,
    loaded := true, attrs := [] }

/-- Counterexample to claim C1: a Loaded entry whose instance pointer is null
(exactly the entry shape LoadPlugin records) makes CallAllPlugins return
false while performing no handler invocation at all, so the aggregate result
is not true although every invoked handler vacuously completed without
raising. -/
theorem C1_counterexample :
    ¬ (((CallAllPlugins [("alpha", pNullInstance)] "on_city_init").1 = true) ↔
        ∀ t ∈ (CallAllPlugins [("alpha", pNullInstance)] "on_city_init").2,
          t.2 ≠ none) := by decide

/-- Claim C1 (amended): with duplicate-free keys, CallAllPlugins invokes the
named handler exactly once on every Loaded entry that holds a live instance
exposing it, regardless of other plugins raising; and the aggregate result is
true iff every Loaded entry holds a live instance and every invoked handler
completed without raising (a Loaded entry with a null instance pointer counts
as a failure without any invocation). -/
theorem C1_amended_callAllPlugins (plugins : List (String × PluginInfo)) (m : String)
    (hnd : (plugins.map Prod.fst).Nodup) :
    (∀ e ∈ plugins, e.2.loaded = true → e.2.hasInstance = true → hasMethod e.2 m = true →
        (CallAllPlugins plugins m).2.countP (fun t => t.1 == e.1) = 1)
    ∧ ((CallAllPlugins plugins m).1 = true ↔
        ((∀ e ∈ plugins, e.2.loaded = true → e.2.hasInstance = true)
         ∧ ∀ t ∈ (CallAllPlugins plugins m).2, t.2 ≠ none)) := by
  have htr := callAllAux_trace plugins m hnd plugins (fun e he => he)
  have hres := callAllAux_result plugins m hnd plugins (fun e he => he)
  constructor
  · intro e he h1 h2 h3
    obtain ⟨n, p⟩ := e
    have hq : (n, p) ∈ plugins.filter
        (fun x => x.2.loaded && x.2.hasInstance && hasMethod x.2 m) :=
      List.mem_filter.mpr ⟨he, by simp_all⟩
    have hfnd : ((plugins.filter
        (fun x => x.2.loaded && x.2.hasInstance && hasMethod x.2 m)).map Prod.fst).Nodup :=
      List.Nodup.sublist ((List.filter_sublist _).map Prod.fst) hnd
    show ((callAllAux plugins m plugins).2.countP fun t => t.1 == n) = 1
    rw [htr, List.countP_map]
    exact countP_key_eq_one hq hfnd
  · show (callAllAux plugins m plugins).1 = true ↔ _
    rw [hres]
    constructor
    · intro hall
      refine ⟨fun e he h1 => (hall e he h1).1, ?_⟩
      intro t htmem
      show t.2 ≠ none
      rw [show (CallAllPlugins plugins m).2 = (callAllAux plugins m plugins).2 from rfl,
        htr] at htmem
      obtain ⟨x, hx, rfl⟩ := List.mem_map.mp htmem
      have hxf := List.mem_filter.mp hx
      have hq := hxf.2
      simp only [Bool.and_eq_true] at hq
      exact (hall x hxf.1 hq.1.1).2 hq.2
    · rintro ⟨hinst, htrace⟩ e he h1
      refine ⟨hinst e he h1, ?_⟩
      intro h3 hm
      have hx : (e.1, methodResult e.2 m) ∈ (CallAllPlugins plugins m).2 := by
        rw [show (CallAllPlugins plugins m).2 = (callAllAux plugins m plugins).2 from rfl,
          htr]
        exact List.mem_map.mpr
          ⟨e, List.mem_filter.mpr ⟨he, by simp [h1, hinst e he h1, h3]⟩, rfl⟩
      exact htrace _ hx hm

def pCityInit (nm : String) (r : Option Bool) : PluginInfo :=
  { filepath := nm ++ ".py", name := nm, hasInstance := true, loaded := true,
    attrs := [("on_city_init", r)] }

def c1plugins : List (String × PluginInfo) :=
  [("alpha", pCityInit "alpha" (some true)), ("bravo", pCityInit "bravo" none),
   ("charlie", pCityInit "charlie" (some true))]

/-- Witness for C1 amended: three loaded plugins where the second raises; each
one is still invoked exactly once and the aggregate result is false. -/
theorem C1_witness :
    (CallAllPlugins c1plugins "on_city_init").2.countP (fun t => t.1 == "alpha") = 1
    ∧ (CallAllPlugins c1plugins "on_city_init").2.countP (fun t => t.1 == "bravo") = 1
    ∧ (CallAllPlugins c1plugins "on_city_init").2.countP (fun t => t.1 == "charlie") = 1
    ∧ (CallAllPlugins c1plugins "on_city_init").1 ≠ true := by
  have h := C1_amended_callAllPlugins c1plugins "on_city_init" (by decide)
  refine ⟨?_, ?_, ?_, ?_⟩
  · exact h.1 ("alpha", pCityInit "alpha" (some true)) (by decide) (by decide)
      (by decide) (by decide)
  · exact h.1 ("bravo", pCityInit "bravo" none) (by decide) (by decide)
      (by decide) (by decide)
  · exact h.1 ("charlie", pCityInit "charlie" (some true)) (by decide) (by decide)
      (by decide) (by decide)
  · intro hc
    have hb := (h.2.mp hc).2 ("bravo", none) (by decide)
    exact hb rfl

theorem handleCheatLoop_eq_goCheat (l : List (String × PluginInfo)) :
    handleCheatLoop l = goCheat (l.filter (fun x => exposesCheat x.2)) := by
  induction l with
  | nil => rfl
  | cons hd tl ih =>
    obtain ⟨n, p⟩ := hd
    by_cases h : exposesCheat p
    · cases hm : methodResult p "handle_cheat" with
      | none => simp [handleCheatLoop, goCheat, h, hm, List.filter_cons]
      | some b =>
        cases b
        · simp [handleCheatLoop, goCheat, h, hm, ih, List.filter_cons]
        · simp [handleCheatLoop, goCheat, h, hm, List.filter_cons]
    · simp [handleCheatLoop, h, ih, List.filter_cons]

theorem goCheat_all_untruthy (E : List (String × PluginInfo))
    (h : ∀ x ∈ E, methodResult x.2 "handle_cheat" = some false) :
    goCheat E = (false, E.map cheatInv) := by
  induction E with
  | nil => simp [goCheat]
  | cons hd tl ih =>
    obtain ⟨n, p⟩ := hd
    have hh := h _ (List.mem_cons_self _ _)
    have ht := fun x hx => h x (List.mem_cons_of_mem _ hx)
    simp [goCheat, hh, ih ht, cheatInv]

theorem goCheat_first_truthy (e : String × PluginInfo) (E2 : List (String × PluginInfo)) :
    ∀ E1 : List (String × PluginInfo),
    (∀ x ∈ E1, methodResult x.2 "handle_cheat" = some false) →
    methodResult e.2 "handle_cheat" = some true →
    goCheat (E1 ++ e :: E2) = (true, (E1 ++ [e]).map cheatInv) := by
  intro E1
  induction E1 with
  | nil =>
    intro _ he
    obtain ⟨n, p⟩ := e
    simp only [] at he
    simp [goCheat, he, cheatInv]
  | cons hd tl ih =>
    intro h1 he
    obtain ⟨n, p⟩ := hd
    have hh := h1 _ (List.mem_cons_self _ _)
    have ht := fun x hx => h1 x (List.mem_cons_of_mem _ hx)
    simp [goCheat, hh, ih ht he, cheatInv]

theorem goCheat_first_raise (e : String × PluginInfo) (E2 : List (String × PluginInfo)) :
    ∀ E1 : List (String × PluginInfo),
    (∀ x ∈ E1, methodResult x.2 "handle_cheat" = some false) →
    methodResult e.2 "handle_cheat" = none →
    goCheat (E1 ++ e :: E2) = (false, (E1 ++ [e]).map cheatInv) := by
  intro E1
  induction E1 with
  | nil =>
    intro _ he
    obtain ⟨n, p⟩ := e
    simp only [] at he
    simp [goCheat, he, cheatInv]
  | cons hd tl ih =>
    intro h1 he
    obtain ⟨n, p⟩ := hd
    have hh := h1 _ (List.mem_cons_self _ _)
    have ht := fun x hx => h1 x (List.mem_cons_of_mem _ hx)
    simp [goCheat, hh, ih ht he, cheatInv]

theorem goCheat_result_iff (E : List (String × PluginInfo))
    (h : ∀ x ∈ E, methodResult x.2 "handle_cheat" ≠ none) :
    ((goCheat E).1 = true ↔ ∃ x ∈ E, methodResult x.2 "handle_cheat" = some true) := by
  induction E with
  | nil => simp [goCheat]
  | cons hd tl ih =>
    obtain ⟨n, p⟩ := hd
    have hh := h _ (List.mem_cons_self _ _)
    have ht := fun x hx => h x (List.mem_cons_of_mem _ hx)
    cases hm : methodResult p "handle_cheat" with
    | none => exact absurd hm hh
    | some b =>
      cases b
      · simp [goCheat, hm, ih ht]
      · simp [goCheat, hm]

/-- Claim C2: routing a cheat over loaded plugins invokes the handle_cheat
handlers of the exposing entries in registry order; the first truthy return
short-circuits with true and later exposing entries are never invoked; when
no handler returns truthy (and none raises) the router returns false after
invoking every exposing entry. -/
theorem C2_handleCheat_first_match (st : PMState) (typesOk : Bool)
    (cheatID : Nat) (cheatText : String)
    (hinit : st.pythonInitialized = true) (ht : typesOk = true) :
    ((∀ x ∈ st.loadedPlugins.filter (fun x => exposesCheat x.2),
        methodResult x.2 "handle_cheat" ≠ none) →
      ((HandleCheat st typesOk cheatID cheatText).1 = true ↔
        ∃ x ∈ st.loadedPlugins.filter (fun x => exposesCheat x.2),
          methodResult x.2 "handle_cheat" = some true))
    ∧ (∀ (E1 : List (String × PluginInfo)) (e : String × PluginInfo)
          (E2 : List (String × PluginInfo)),
        st.loadedPlugins.filter (fun x => exposesCheat x.2) = E1 ++ e :: E2 →
        (∀ x ∈ E1, methodResult x.2 "handle_cheat" = some false) →
        methodResult e.2 "handle_cheat" = some true →
        HandleCheat st typesOk cheatID cheatText = (true, (E1 ++ [e]).map cheatInv))
    ∧ ((∀ x ∈ st.loadedPlugins.filter (fun x => exposesCheat x.2),
        methodResult x.2 "handle_cheat" = some false) →
      HandleCheat st typesOk cheatID cheatText
        = (false, (st.loadedPlugins.filter (fun x => exposesCheat x.2)).map cheatInv)) := by
  have hunfold : HandleCheat st typesOk cheatID cheatText
      = goCheat (st.loadedPlugins.filter (fun x => exposesCheat x.2)) := by
    simp [HandleCheat, hinit, ht, handleCheatLoop_eq_goCheat]
  refine ⟨?_, ?_, ?_⟩
  · intro hnr
    rw [hunfold]
    exact goCheat_result_iff _ hnr
  · intro E1 e E2 hsplit h1 he
    rw [hunfold, hsplit]
    exact goCheat_first_truthy e E2 E1 h1 he
  · intro hall
    rw [hunfold]
    exact goCheat_all_untruthy _ hall

def pTruthy (nm : String) : PluginInfo :=
  { filepath := nm ++ ".py", name := nm, hasInstance := true, loaded := true,
    attrs := [("handle_cheat", some true)] }

def pRaising (nm : String) : PluginInfo :=
  { filepath := nm ++ ".py", name := nm, hasInstance := true, loaded := true,
    attrs := [("handle_cheat", none)] }

def c2state : PMState :=
  { pythonInitialized := true,
    loadedPlugins := [("alpha", pTruthy "alpha"), ("beta", pTruthy "beta")],
    lastError := "" }

/-- Witness for C2: plugins alpha and beta would both return truthy and alpha
is loaded first; only alpha is invoked and the router returns true. -/
theorem C2_witness :
    HandleCheat c2state true 27024 "fund" = (true, [("alpha", some true)]) := by
  have h := (C2_handleCheat_first_match c2state true 27024 "fund" rfl rfl).2.1
    [] ("alpha", pTruthy "alpha") [("beta", pTruthy "beta")]
    (by decide) (by decide) (by decide)
  rw [h]; decide

def c3state : PMState :=
  { pythonInitialized := true,
    loadedPlugins := [("alpha", pRaising "alpha"), ("beta", pTruthy "beta")],
    lastError := "" }

/-- Counterexample to claim C3: when the first exposing plugin raises, the
route returns false and the second exposing plugin, which would have claimed
the command, is never invoked: the iteration does not continue past the
raising plugin. -/
theorem C3_counterexample :
    HandleCheat c3state true 27024 "fund" = (false, [("alpha", none)])
    ∧ exposesCheat (pRaising "alpha") = true
    ∧ exposesCheat (pTruthy "beta") = true
    ∧ methodResult (pTruthy "beta") "handle_cheat" = some true := by decide

/-- Claim C3 (amended): an exception from a handle_cheat handler is caught at
the whole-route level: HandleCheat returns false for the entire route right
there, and plugins iterated after the raising one are not invoked. -/
theorem C3_amended_handleCheat_exception_aborts (st : PMState) (typesOk : Bool)
    (cheatID : Nat) (cheatText : String)
    (hinit : st.pythonInitialized = true) (ht : typesOk = true)
    (E1 : List (String × PluginInfo)) (e : String × PluginInfo)
    (E2 : List (String × PluginInfo))
    (hsplit : st.loadedPlugins.filter (fun x => exposesCheat x.2) = E1 ++ e :: E2)
    (h1 : ∀ x ∈ E1, methodResult x.2 "handle_cheat" = some false)
    (he : methodResult e.2 "handle_cheat" = none) :
    HandleCheat st typesOk cheatID cheatText = (false, (E1 ++ [e]).map cheatInv) := by
  have hunfold : HandleCheat st typesOk cheatID cheatText
      = goCheat (st.loadedPlugins.filter (fun x => exposesCheat x.2)) := by
    simp [HandleCheat, hinit, ht, handleCheatLoop_eq_goCheat]
  rw [hunfold, hsplit]
  exact goCheat_first_raise e E2 E1 h1 he

/-- Witness for C3 amended: the concrete aborted route. -/
theorem C3_witness :
    HandleCheat c3state true 27024 "fund" = (false, [("alpha", none)]) := by
  have h := C3_amended_handleCheat_exception_aborts c3state true 27024 "fund" rfl rfl
    [] ("alpha", pRaising "alpha") [("beta", pTruthy "beta")]
    (by decide) (by decide) (by decide)
  rw [h]; decide

end SC4
